import Mathlib

/-!
Verification of the Antrea node-local CNI agent core: the container
attach/detach pipeline (CNI server), the per-container access arbitrator,
the OVSDB bridge client, the interface store and the startup reconciler.

Definitions are shallow embeddings of the Go source:
  - the container access arbitrator and the ADD/DEL/CHECK handlers from the
    cniserver package (server.go),
  - the OVSDB client operations from pkg/ovs/ovsconfig/ovs_client.go,
  - the interface store and the pod-configuration helpers, whose
    implementation files are absent from the slice, are modelled from the
    specification (doc comments say so explicitly).
-/

/-- CNI error codes of the request/response protocol (cnipb.ErrorCode). -/
inductive ErrorCode where
  | DECODING_FAILURE
  | INCOMPATIBLE_CNI_VERSION
  | UNSUPPORTED_FIELD
  | UNKNOWN_CONTAINER
  | TRY_AGAIN_LATER
  | IPAM_FAILURE
  | CONFIG_INTERFACE_FAILURE
  | CHECK_INTERFACE_FAILURE
  | INVALID_NETWORK_CONFIG
  deriving DecidableEq, Repr

/-- A CNI command response: either a success carrying an encoded result, or a
structured error with one of the enumerated codes (cnipb.CniCmdResponse). -/
inductive CniResponse where
  | success
  | error (code : ErrorCode)
  deriving DecidableEq, Repr

/-!
Container access arbitrator (containerAccessArbitrator in server.go).

The Go structure holds a mutex, a condition variable and a set
busyContainerIDs. lockContainer(id) loops on cond.Wait while id is in the
set, then inserts it; unlockContainer(id) deletes the id and broadcasts.
We embed the protocol as a labelled transition system: a lock transition is
enabled exactly when the id is not busy (the loop in lockContainer can only
exit in such a state); an unlock transition is enabled for the goroutine
holding the id.  The holding component records which goroutine is between
its lockContainer and unlockContainer calls for a given id.
-/

/-- State of the arbitrator: the busy set (busyContainerIDs in the source)
together with the goroutines currently holding each id. -/
structure ArbState where
  busyContainerIDs : List String
  holding : List (Nat × String)
  deriving DecidableEq, Repr

/-- One transition of the arbitrator protocol.  lockContainer can complete
only in a state where the container id is not in the busy set, and inserts
it; unlockContainer removes the id from the busy set (and broadcasts, which
the relation models by lock transitions becoming enabled again). -/
inductive ArbStep : ArbState → ArbState → Prop where
  | lockContainer (s : ArbState) (g : Nat) (id : String)
      (hfree : id ∉ s.busyContainerIDs) :
      ArbStep s ⟨id :: s.busyContainerIDs, (g, id) :: s.holding⟩
  | unlockContainer (s : ArbState) (g : Nat) (id : String)
      (hheld : (g, id) ∈ s.holding) :
      ArbStep s ⟨s.busyContainerIDs.erase id, s.holding.erase (g, id)⟩

/-- States reachable from the freshly constructed arbitrator
(newContainerAccessArbitrator starts with an empty busy set). -/
inductive ArbReach : ArbState → Prop where
  | init : ArbReach ⟨[], []⟩
  | step (s t : ArbState) : ArbReach s → ArbStep s t → ArbReach t

/-- Invariant of the arbitrator: the busy set has no duplicates, holders are
unique per container id, and every held id is busy. -/
def ArbInv (s : ArbState) : Prop :=
  s.busyContainerIDs.Nodup ∧ s.holding.Nodup ∧
  (∀ p ∈ s.holding, p.2 ∈ s.busyContainerIDs) ∧
  (∀ p ∈ s.holding, ∀ q ∈ s.holding, p.2 = q.2 → p = q)

lemma arbInv_init : ArbInv ⟨[], []⟩ := by
  refine ⟨List.nodup_nil, List.nodup_nil, ?_, ?_⟩ <;> intro p hp <;> simp at hp

lemma arbInv_step (s t : ArbState) (hinv : ArbInv s) (hstep : ArbStep s t) :
    ArbInv t := by
  obtain ⟨hbusy, hhold, hsub, huniq⟩ := hinv
  cases hstep with
  | lockContainer g id hfree =>
      refine ⟨List.nodup_cons.mpr ⟨hfree, hbusy⟩, ?_, ?_, ?_⟩
      · refine List.nodup_cons.mpr ⟨?_, hhold⟩
        intro hmem
        exact hfree (hsub _ hmem)
      · intro p hp
        rcases List.mem_cons.mp hp with h | h
        · subst h; exact List.mem_cons_self _ _
        · exact List.mem_cons_of_mem _ (hsub _ h)
      · intro p hp q hq hpq
        rcases List.mem_cons.mp hp with h | h <;>
          rcases List.mem_cons.mp hq with h' | h'
        · rw [h, h']
        · subst h
          exact absurd (hsub _ h') (by simpa [← hpq] using hfree)
        · subst h'
          exact absurd (hsub _ h) (by simpa [hpq] using hfree)
        · exact huniq _ h _ h' hpq
  | unlockContainer g id hheld =>
      refine ⟨hbusy.erase id, hhold.erase (g, id), ?_, ?_⟩
      · intro p hp
        have hp' : p ∈ s.holding := List.mem_of_mem_erase hp
        have hne : p ≠ (g, id) := (List.Nodup.mem_erase_iff hhold).mp hp |>.1
        have hid : p.2 ≠ id := by
          intro h2
          exact hne (huniq _ hp' _ hheld h2)
        exact (List.mem_erase_of_ne hid).mpr (hsub _ hp')
      · intro p hp q hq hpq
        exact huniq _ (List.mem_of_mem_erase hp) _ (List.mem_of_mem_erase hq) hpq

lemma arbReach_inv (s : ArbState) (h : ArbReach s) : ArbInv s := by
  induction h with
  | init => exact arbInv_init
  | step s t _ hstep ih => exact arbInv_step s t ih hstep

/-- Claim C2: for every sequence of lockContainer/unlockContainer calls (every
reachable arbitrator state) and every container id, at most one goroutine
holds the id: if goroutines g1 and g2 both hold the same container id, they
are the same goroutine.  lockContainer completes only in a state where the id
is not busy and inserts it (by construction of ArbStep.lockContainer), and
unlockContainer removes it; hence handlers for the same id are mutually
exclusive and no other handler observes or mutates store entries for a held
id. -/
theorem lockContainer_mutual_exclusion (s : ArbState) (hs : ArbReach s)
    (g1 g2 : Nat) (id : String)
    (h1 : (g1, id) ∈ s.holding) (h2 : (g2, id) ∈ s.holding) : g1 = g2 := by
  have hinv := arbReach_inv s hs
  have := hinv.2.2.2 _ h1 _ h2 rfl
  exact congrArg Prod.fst this

/-- Witness for claim C2 at a concrete reachable state: after goroutine 0
locks container id c, the mutual exclusion theorem applies. -/
theorem lockContainer_mutual_exclusion_witness : (0 : Nat) = 0 :=
  lockContainer_mutual_exclusion ⟨["c"], [(0, "c")]⟩
    (ArbReach.step ⟨[], []⟩ ⟨["c"], [(0, "c")]⟩ ArbReach.init
      (ArbStep.lockContainer ⟨[], []⟩ 0 "c" (by simp)))
    0 0 "c" (by simp) (by simp)

/-!
Trace model of the arbitrator, for ordering claims.  An arrive event
records a goroutine calling lockContainer (entering the wait loop); an
acquire event records lockContainer returning (which requires the id not to
be busy: the wait loop exits only then); a release event is
unlockContainer.  cond.Broadcast wakes every waiter and sync.Cond promises
no fairness, so any waiting goroutine may acquire once the id is free: the
model lets any arrived goroutine take the acquire step.
-/

/-- Events of the arbitrator trace model. -/
inductive ArbEvent where
  | arrive (g : Nat) (id : String)
  | acquire (g : Nat) (id : String)
  | release (g : Nat) (id : String)
  deriving DecidableEq, Repr

/-- Scheduler state for the trace model: busy ids, holders, and goroutines
waiting in lockContainer's loop (in arrival order). -/
structure ArbSched where
  busy : List String
  held : List (Nat × String)
  waiting : List (Nat × String)
  deriving DecidableEq, Repr

/-- One step of the trace model; none if the event is not enabled. -/
def arbStepRun (s : ArbSched) : ArbEvent → Option ArbSched
  | ArbEvent.arrive g id =>
      if (g, id) ∈ s.waiting ∨ (g, id) ∈ s.held then none
      else some ⟨s.busy, s.held, s.waiting ++ [(g, id)]⟩
  | ArbEvent.acquire g id =>
      if (g, id) ∈ s.waiting ∧ id ∉ s.busy then
        some ⟨id :: s.busy, (g, id) :: s.held, s.waiting.erase (g, id)⟩
      else none
  | ArbEvent.release g id =>
      if (g, id) ∈ s.held then
        some ⟨s.busy.erase id, s.held.erase (g, id), s.waiting⟩
      else none

/-- Run a trace of events from a state. -/
def arbRun (s : ArbSched) : List ArbEvent → Option ArbSched
  | [] => some s
  | e :: es =>
      match arbStepRun s e with
      | none => none
      | some t => arbRun t es

/-- A trace is valid when it runs to completion from the initial state. -/
def validArbTrace (tr : List ArbEvent) : Bool :=
  (arbRun ⟨[], [], []⟩ tr).isSome

/-- Goroutines arriving (calling lockContainer) for a container id, in trace
order. -/
def arrivalsFor (id : String) (tr : List ArbEvent) : List Nat :=
  tr.filterMap fun e =>
    match e with
    | ArbEvent.arrive g i => if i = id then some g else none
    | _ => none

/-- Goroutines acquiring (returning from lockContainer) for a container id,
in trace order. -/
def acquiresFor (id : String) (tr : List ArbEvent) : List Nat :=
  tr.filterMap fun e =>
    match e with
    | ArbEvent.acquire g i => if i = id then some g else none
    | _ => none

/-- A trace in which goroutine 2 arrives before goroutine 3 for container c,
but goroutine 3 acquires first after the broadcast: allowed because
sync.Cond.Broadcast wakes all waiters with no fairness promise. -/
def outOfOrderTrace : List ArbEvent :=
  [ArbEvent.arrive 1 "c", ArbEvent.acquire 1 "c", ArbEvent.arrive 2 "c",
   ArbEvent.arrive 3 "c", ArbEvent.release 1 "c", ArbEvent.acquire 3 "c",
   ArbEvent.release 3 "c", ArbEvent.acquire 2 "c", ArbEvent.release 2 "c"]

/-- Claim C5 counterexample: it is not the case that on every valid trace the
operations for a container id complete in their order of arrival at the
arbitrator.  In outOfOrderTrace the goroutines arrive for container c in the
order 1, 2, 3 but acquire the lock in the order 1, 3, 2, because the
condition-variable broadcast in unlockContainer wakes all waiters and any of
them may win. -/
theorem arbitrator_arrival_order_counterexample :
    ¬ (∀ tr : List ArbEvent, validArbTrace tr = true → ∀ id : String,
        acquiresFor id tr = (arrivalsFor id tr).take (acquiresFor id tr).length) := by
  intro h
  have h1 := h outOfOrderTrace (by decide) "c"
  exact absurd h1 (by decide)

/-- Invariant of the trace model: busy ids and held pairs are duplicate-free,
holders are unique per id, and held ids are busy. -/
def SchedInv (s : ArbSched) : Prop :=
  s.busy.Nodup ∧ s.held.Nodup ∧
  (∀ p ∈ s.held, p.2 ∈ s.busy) ∧
  (∀ p ∈ s.held, ∀ q ∈ s.held, p.2 = q.2 → p = q)

lemma schedInv_step (s t : ArbSched) (e : ArbEvent) (hinv : SchedInv s)
    (hstep : arbStepRun s e = some t) : SchedInv t := by
  obtain ⟨hbusy, hheld, hsub, huniq⟩ := hinv
  cases e with
  | arrive g id =>
      simp only [arbStepRun] at hstep
      split at hstep
      · exact absurd hstep (by simp)
      · cases hstep
        exact ⟨hbusy, hheld, hsub, huniq⟩
  | acquire g id =>
      simp only [arbStepRun] at hstep
      split at hstep
      case isTrue hcond =>
        obtain ⟨hwait, hfree⟩ := hcond
        cases hstep
        refine ⟨List.nodup_cons.mpr ⟨hfree, hbusy⟩, ?_, ?_, ?_⟩
        · refine List.nodup_cons.mpr ⟨?_, hheld⟩
          intro hmem
          exact hfree (hsub _ hmem)
        · intro p hp
          rcases List.mem_cons.mp hp with h | h
          · subst h; exact List.mem_cons_self _ _
          · exact List.mem_cons_of_mem _ (hsub _ h)
        · intro p hp q hq hpq
          rcases List.mem_cons.mp hp with h | h <;>
            rcases List.mem_cons.mp hq with h' | h'
          · rw [h, h']
          · subst h
            exact absurd (hsub _ h') (by simpa [← hpq] using hfree)
          · subst h'
            exact absurd (hsub _ h) (by simpa [hpq] using hfree)
          · exact huniq _ h _ h' hpq
      case isFalse => exact absurd hstep (by simp)
  | release g id =>
      simp only [arbStepRun] at hstep
      split at hstep
      case isTrue hcond =>
        cases hstep
        refine ⟨hbusy.erase id, hheld.erase (g, id), ?_, ?_⟩
        · intro p hp
          have hp' : p ∈ s.held := List.mem_of_mem_erase hp
          have hne : p ≠ (g, id) := (List.Nodup.mem_erase_iff hheld).mp hp |>.1
          have hid : p.2 ≠ id := by
            intro h2
            exact hne (huniq _ hp' _ hcond h2)
          exact (List.mem_erase_of_ne hid).mpr (hsub _ hp')
        · intro p hp q hq hpq
          exact huniq _ (List.mem_of_mem_erase hp) _ (List.mem_of_mem_erase hq) hpq
      case isFalse => exact absurd hstep (by simp)

lemma schedInv_run (tr : List ArbEvent) (s t : ArbSched) (hinv : SchedInv s)
    (hrun : arbRun s tr = some t) : SchedInv t := by
  induction tr generalizing s with
  | nil =>
      simp only [arbRun] at hrun
      cases hrun
      exact hinv
  | cons e es ih =>
      simp only [arbRun] at hrun
      cases hstep : arbStepRun s e with
      | none => rw [hstep] at hrun; cases hrun
      | some u =>
          rw [hstep] at hrun
          exact ih u (schedInv_step s u e hinv hstep) hrun

lemma schedInv_init : SchedInv ⟨[], [], []⟩ := by
  refine ⟨List.nodup_nil, List.nodup_nil, ?_, ?_⟩ <;> intro p hp <;> simp at hp

/-- Claim C5, amended: for every valid interleaving of lockContainer and
unlockContainer events and every container id, the operations are mutually
exclusive (in the state after any valid trace, at most one goroutine holds
the id, so they never observe each other's partial state); the operations
complete in lock-acquisition order, which need not be arrival order because
the condition-variable broadcast promises no fairness. -/
theorem arbitrator_serializes_per_container (tr : List ArbEvent) (s : ArbSched)
    (hrun : arbRun ⟨[], [], []⟩ tr = some s)
    (g1 g2 : Nat) (id : String)
    (h1 : (g1, id) ∈ s.held) (h2 : (g2, id) ∈ s.held) : g1 = g2 := by
  have hinv := schedInv_run tr ⟨[], [], []⟩ s schedInv_init hrun
  exact congrArg Prod.fst (hinv.2.2.2 _ h1 _ h2 rfl)

/-- Witness for the amended claim C5 on a concrete valid trace: goroutine 0
arrives and acquires container c. -/
theorem arbitrator_serializes_per_container_witness : (0 : Nat) = 0 :=
  arbitrator_serializes_per_container
    [ArbEvent.arrive 0 "c", ArbEvent.acquire 0 "c"]
    ⟨["c"], [(0, "c")], []⟩ (by decide) 0 0 "c" (by decide) (by decide)

/-!
ADD/DEL handlers (CmdAdd and CmdDel in server.go).

The handlers drive four side effects: the IPAM allocation (ExecIPAMAdd /
ExecIPAMDelete), the OVS port (CreatePort / DeletePort), the interface
store entry (AddInterface / DeleteInterface) and the installed pod flows
(InstallPodFlows / UninstallPodFlows).  We track them as four booleans.
configureInterface and removeInterfaces live in pod_configuration.go, which
is not part of the slice; their effects on the four booleans are modelled
from the spec (sections 4.D ADD steps 3-7 and DEL step 2).
-/

/-- The four side effects the ADD/DEL contract speaks about: the IPAM
allocation, the OVS port, the interface store entry and the installed pod
flows. -/
structure SysState where
  ipamAlloc : Bool
  ovsPort : Bool
  storeEntry : Bool
  flows : Bool
  deriving DecidableEq, Repr

/-- A system state with none of the four side effects present. -/
def SysState.clean : SysState := ⟨false, false, false, false⟩

/-- Environment of one ADD request: whether checkRequestMessage passes,
whether ExecIPAMAdd succeeds, how far configureInterface gets (none means
success; some k means failure after k of its three tracked effects, in the
order OVS port, store entry, flows), and whether ExecIPAMDelete succeeds
when DEL runs. -/
structure AddEnv where
  validationOk : Bool
  ipamAddOk : Bool
  cfgFail : Option Nat
  ipamDelOk : Bool

/-- Modelled from the spec: the effects of configureInterface
(pod_configuration.go, absent from the slice) on the tracked state.  Spec
section 4.D ADD steps 3-7: create the veth pair, create the OVS port,
wait for the ofport, insert the record into the store, install the pod
flows.  A failure after k tracked effects leaves the earlier effects in
place (the partial state the rollback must clear). -/
def configureInterfaceEffect : Option Nat → SysState → SysState
  | some 0, st => st
  | some 1, st => { st with ovsPort := true }
  | some (_ + 2), st => { st with ovsPort := true, storeEntry := true }
  | none, st => { st with ovsPort := true, storeEntry := true, flows := true }

/-- Modelled from the spec: removeInterfaces (pod_configuration.go, absent
from the slice) deletes the pod flows, deletes the OVS port, deletes the
host veth and removes the store entry, continuing through every step (spec
section 4.D DEL step 2 and section 7: DEL handlers continue through all
cleanup steps even if one fails). -/
def removeInterfacesEffect (st : SysState) : SysState :=
  { st with flows := false, ovsPort := false, storeEntry := false }

/-- CmdDel (server.go): after checkRequestMessage, invoke ExecIPAMDelete; on
failure return IPAM_FAILURE at once (removeInterfaces is not reached);
otherwise remove the interfaces and return success. -/
def cmdDel (env : AddEnv) (st : SysState) : SysState × CniResponse :=
  if env.validationOk = false then (st, CniResponse.error ErrorCode.DECODING_FAILURE)
  else if env.ipamDelOk = false then (st, CniResponse.error ErrorCode.IPAM_FAILURE)
  else
    let st1 := { st with ipamAlloc := false }
    (removeInterfacesEffect st1, CniResponse.success)

/-- The body of CmdAdd after validation (server.go): ExecIPAMAdd, then
updateResultIfaceConfig, then configureInterface; the first failure decides
the response code (IPAM_FAILURE or CONFIG_INTERFACE_FAILURE). -/
def cmdAddBody (env : AddEnv) (st : SysState) : SysState × CniResponse :=
  if env.ipamAddOk = false then (st, CniResponse.error ErrorCode.IPAM_FAILURE)
  else
    let st1 := { st with ipamAlloc := true }
    match env.cfgFail with
    | some k =>
        (configureInterfaceEffect (some k) st1,
         CniResponse.error ErrorCode.CONFIG_INTERFACE_FAILURE)
    | none => (configureInterfaceEffect none st1, CniResponse.success)

/-- CmdAdd (server.go): checkRequestMessage first (failures return before the
rollback defer is registered); then the deferred rollback invokes CmdDel on
the same request whenever success is still false, logging but not returning
rollback errors, and the response of the original failure is preserved (the
defer cannot change the returned response). -/
def cmdAdd (env : AddEnv) (st : SysState) : SysState × CniResponse :=
  if env.validationOk = false then (st, CniResponse.error ErrorCode.DECODING_FAILURE)
  else
    let (st1, resp) := cmdAddBody env st
    match resp with
    | CniResponse.success => (st1, resp)
    | CniResponse.error code => ((cmdDel env st1).1, CniResponse.error code)

/-- Claim C1: every ADD request that passes validation and then fails (at
IPAM add or at interface configuration, whatever partial state the latter
left) ends with DEL semantics applied to the same request: provided the
rollback's own delete operations succeed, no IPAM allocation, OVS port,
store entry or installed flows remain, and the response still carries the
original failure code: IPAM_FAILURE when ExecIPAMAdd failed, and
CONFIG_INTERFACE_FAILURE when configureInterface failed. -/
theorem cmdAdd_rollback (env : AddEnv) (st : SysState)
    (hv : env.validationOk = true) (hd : env.ipamDelOk = true)
    (hfail : env.ipamAddOk = false ∨ env.cfgFail.isSome = true) :
    (cmdAdd env st).1 = SysState.clean ∧
    ((cmdAdd env st).2 = CniResponse.error ErrorCode.IPAM_FAILURE ∨
     (cmdAdd env st).2 = CniResponse.error ErrorCode.CONFIG_INTERFACE_FAILURE) ∧
    (env.ipamAddOk = false →
      (cmdAdd env st).2 = CniResponse.error ErrorCode.IPAM_FAILURE) ∧
    (env.ipamAddOk = true →
      (cmdAdd env st).2 = CniResponse.error ErrorCode.CONFIG_INTERFACE_FAILURE) := by
  cases hadd : env.ipamAddOk with
  | false =>
      simp [cmdAdd, cmdAddBody, cmdDel, removeInterfacesEffect, SysState.clean,
            hv, hd, hadd]
  | true =>
      cases hcfg : env.cfgFail with
      | none => simp [hadd, hcfg] at hfail
      | some k =>
          cases k with
          | zero =>
              simp [cmdAdd, cmdAddBody, cmdDel, removeInterfacesEffect,
                    configureInterfaceEffect, SysState.clean, hv, hd, hadd, hcfg]
          | succ k' =>
              cases k' with
              | zero =>
                  simp [cmdAdd, cmdAddBody, cmdDel, removeInterfacesEffect,
                        configureInterfaceEffect, SysState.clean, hv, hd, hadd, hcfg]
              | succ k'' =>
                  simp [cmdAdd, cmdAddBody, cmdDel, removeInterfacesEffect,
                        configureInterfaceEffect, SysState.clean, hv, hd, hadd, hcfg]

/-- Witness for claim C1: a validated request whose interface configuration
fails right after the OVS port was created is rolled back to the clean state
with response CONFIG_INTERFACE_FAILURE. -/
theorem cmdAdd_rollback_witness :
    (cmdAdd ⟨true, true, some 1, true⟩ SysState.clean).1 = SysState.clean ∧
    ((cmdAdd ⟨true, true, some 1, true⟩ SysState.clean).2 =
       CniResponse.error ErrorCode.IPAM_FAILURE ∨
     (cmdAdd ⟨true, true, some 1, true⟩ SysState.clean).2 =
       CniResponse.error ErrorCode.CONFIG_INTERFACE_FAILURE) ∧
    ((true : Bool) = false →
      (cmdAdd ⟨true, true, some 1, true⟩ SysState.clean).2 =
        CniResponse.error ErrorCode.IPAM_FAILURE) ∧
    ((true : Bool) = true →
      (cmdAdd ⟨true, true, some 1, true⟩ SysState.clean).2 =
        CniResponse.error ErrorCode.CONFIG_INTERFACE_FAILURE) :=
  cmdAdd_rollback ⟨true, true, some 1, true⟩ SysState.clean rfl rfl
    (Or.inr rfl)

/-!
updateResultIfaceConfig (server.go, lines 126-158).

IPv4 addresses are embedded as natural numbers; a CIDR is an address plus a
prefix length.  The Go code computes the network address with
ipn.IP.Mask(ipn.Mask) (zeroing the host bits) and the derived gateway with
ip.NextIP (adding one).
-/

/-- A CIDR: address with prefix length (net.IPNet with a CIDR mask). -/
structure IPNetM where
  ip : Nat
  maskBits : Nat
  deriving DecidableEq, Repr

/-- The network address: host bits zeroed, as ipn.IP.Mask(ipn.Mask) does. -/
def IPNetM.networkAddress (n : IPNetM) : Nat :=
  n.ip / 2 ^ (32 - n.maskBits) * 2 ^ (32 - n.maskBits)

/-- One assigned address of the IPAM result (current.IPConfig): the address,
an optional gateway, and the index of the interface it belongs to. -/
structure IPConfigM where
  address : IPNetM
  gateway : Option Nat
  interface : Option Nat
  deriving DecidableEq, Repr

/-- One route of the IPAM result (types.Route). -/
structure RouteM where
  dst : IPNetM
  gw : Option Nat
  deriving DecidableEq, Repr

/-- The IPAM result (current.Result restricted to the fields the function
touches).  routes is an Option to mirror the Go distinction between a nil
slice and an empty one, which the source branches on. -/
structure ResultM where
  ips : List IPConfigM
  routes : Option (List RouteM)
  deriving DecidableEq, Repr

/-- Whether route.Dst.String() equals the string 0.0.0.0/0. -/
def isDefaultRoute (r : RouteM) : Bool :=
  r.dst.ip = 0 && r.dst.maskBits = 0

/-- The default route appended by updateResultIfaceConfig: destination
0.0.0.0/0 via the provided gateway. -/
def mkDefaultRoute (gw : Nat) : RouteM := ⟨⟨0, 0⟩, some gw⟩

/-- updateResultIfaceConfig (server.go): set each address's interface
pointer to index 1 (the container interface), derive a missing gateway as
the network address plus one, and append a default route via the node
gateway when none is present (initializing a nil route list first). -/
def updateResultIfaceConfig (result : ResultM) (defaultV4Gateway : Nat) : ResultM :=
  let ips := result.ips.map fun ipc =>
    let ipc1 := { ipc with interface := some 1 }
    match ipc1.gateway with
    | none => { ipc1 with gateway := some (ipc1.address.networkAddress + 1) }
    | some _ => ipc1
  let scan :=
    match result.routes with
    | some rs => (rs, rs.any isDefaultRoute)
    | none => ([], false)
  let routes := if scan.2 then scan.1 else scan.1 ++ [mkDefaultRoute defaultV4Gateway]
  { ips := ips, routes := some routes }

/-- Claim C7: updateResultIfaceConfig sets every assigned address's interface
pointer to index 1; every address with a nil gateway gets the subnet's
network address plus one as gateway while supplied gateways and the
addresses themselves are kept; and when no route with destination 0.0.0.0/0
is present exactly one default route via the provided node gateway is
appended after the existing routes, which are left unchanged (a present
default route leaves the list exactly as it was). -/
theorem updateResultIfaceConfig_spec (result : ResultM) (gw : Nat) :
    (∀ ipc ∈ (updateResultIfaceConfig result gw).ips, ipc.interface = some 1) ∧
    ((updateResultIfaceConfig result gw).ips = result.ips.map fun ipc =>
      ⟨ipc.address,
       some (ipc.gateway.getD (ipc.address.networkAddress + 1)),
       some 1⟩) ∧
    ((updateResultIfaceConfig result gw).routes =
      match result.routes with
      | some rs =>
          if rs.any isDefaultRoute then some rs
          else some (rs ++ [mkDefaultRoute gw])
      | none => some [mkDefaultRoute gw]) := by
  refine ⟨?_, ?_, ?_⟩
  · intro ipc hmem
    simp only [updateResultIfaceConfig, List.mem_map] at hmem
    obtain ⟨ipc0, _, heq⟩ := hmem
    cases h : ipc0.gateway <;> simp [← heq, h]
  · simp only [updateResultIfaceConfig]
    refine List.map_congr_left ?_
    intro ipc _
    cases h : ipc.gateway <;> simp [h]
  · cases h : result.routes with
    | none => simp [updateResultIfaceConfig, h]
    | some rs =>
        cases hany : rs.any isDefaultRoute <;>
          simp [updateResultIfaceConfig, h, hany]

/-- Witness for claim C7 on a concrete IPAM result: one address 10.1.2.100/24
without a gateway (network 10.1.2.0, derived gateway 10.1.2.1) and no
routes; the container test subnet of the repository's server tests. -/
theorem updateResultIfaceConfig_spec_witness :
    (∀ ipc ∈ (updateResultIfaceConfig ⟨[⟨⟨167838308, 24⟩, none, none⟩], none⟩ 167838209).ips,
      ipc.interface = some 1) ∧
    ((updateResultIfaceConfig ⟨[⟨⟨167838308, 24⟩, none, none⟩], none⟩ 167838209).ips =
      [⟨⟨167838308, 24⟩, some (IPNetM.networkAddress ⟨167838308, 24⟩ + 1), some 1⟩]) ∧
    ((updateResultIfaceConfig ⟨[⟨⟨167838308, 24⟩, none, none⟩], none⟩ 167838209).routes =
      some [mkDefaultRoute 167838209]) := by
  have h := updateResultIfaceConfig_spec ⟨[⟨⟨167838308, 24⟩, none, none⟩], none⟩ 167838209
  exact ⟨h.1, by simpa using h.2.1, by simpa using h.2.2⟩

/-!
updateLocalIPAMSubnet (server.go, lines 205-209) and loadNetworkConfig
(lines 160-176).  The server rewrites ipam.gateway and ipam.subnet from the
node configuration and re-marshals the network configuration before the
IPAM driver is invoked with those bytes.
-/

/-- The IPAM section of the network configuration (ipam.IPAMConfig).  Its
declaring file is not in the slice; type, subnet and gateway are the fields
the server reads and writes, and rest stands for any further caller-supplied
IPAM fields, carried through unchanged. -/
structure IPAMConfigM where
  type : String
  subnet : String
  gateway : String
  rest : String
  deriving DecidableEq, Repr

/-- The parsed network configuration (NetworkConfig in server.go). -/
structure NetworkConfigM where
  cniVersion : String
  name : String
  type : String
  mtu : Nat
  ipam : IPAMConfigM
  deriving DecidableEq, Repr

/-- Node configuration fields the server uses here: the gateway IP and the
pod CIDR. -/
structure NodeConfigM where
  gatewayIP : String
  podCIDR : String
  deriving DecidableEq, Repr

/-- Serialization of the network configuration (json.Marshal on the
NetworkConfig struct): any fixed injection into strings works for the
noninterference statement; a field-separated rendering is used. -/
def encodeNetworkConfig (nc : NetworkConfigM) : String :=
  String.intercalate ";"
    [nc.cniVersion, nc.name, nc.type, toString nc.mtu,
     nc.ipam.type, nc.ipam.subnet, nc.ipam.gateway, nc.ipam.rest]

/-- The request state the IPAM driver sees: the parsed structure and the
re-marshaled NetworkConfiguration bytes (CNIConfig carrying CniCmdArgs). -/
structure CNIConfigM where
  networkConfig : NetworkConfigM
  networkConfiguration : String
  deriving DecidableEq, Repr

/-- updateLocalIPAMSubnet (server.go): overwrite ipam.gateway with the node
gateway IP and ipam.subnet with the node pod CIDR, then re-marshal the
network configuration. -/
def updateLocalIPAMSubnet (node : NodeConfigM) (c : CNIConfigM) : CNIConfigM :=
  let nc := { c.networkConfig with
    ipam := { c.networkConfig.ipam with
      gateway := node.gatewayIP, subnet := node.podCIDR } }
  { networkConfig := nc, networkConfiguration := encodeNetworkConfig nc }

/-- Erase the caller-supplied ipam.subnet and ipam.gateway fields; two
requests identical except for those fields have equal erasures. -/
def eraseCallerIPAM (nc : NetworkConfigM) : NetworkConfigM :=
  { nc with ipam := { nc.ipam with subnet := "", gateway := "" } }

/-- Claim C9: for every pair of requests identical except for the
caller-supplied ipam.subnet and ipam.gateway fields, the network
configuration handed to the IPAM driver is the same: updateLocalIPAMSubnet
overwrites both fields with the node's pod CIDR and gateway IP and
re-marshals, so the resulting parsed structure and NetworkConfiguration
bytes coincide. -/
theorem updateLocalIPAMSubnet_noninterference (node : NodeConfigM)
    (c1 c2 : CNIConfigM)
    (h : eraseCallerIPAM c1.networkConfig = eraseCallerIPAM c2.networkConfig) :
    updateLocalIPAMSubnet node c1 = updateLocalIPAMSubnet node c2 := by
  obtain ⟨⟨v1, n1, t1, m1, ⟨it1, is1, ig1, ir1⟩⟩, b1⟩ := c1
  obtain ⟨⟨v2, n2, t2, m2, ⟨it2, is2, ig2, ir2⟩⟩, b2⟩ := c2
  simp only [eraseCallerIPAM, NetworkConfigM.mk.injEq, IPAMConfigM.mk.injEq] at h
  obtain ⟨hv, hn, ht, hm, hit, hir⟩ := h
  simp [updateLocalIPAMSubnet, encodeNetworkConfig, hv, hn, ht, hm, hit, hir]

/-- Witness for claim C9: two concrete requests differing only in their
caller-supplied subnet and gateway are mapped to the same IPAM input. -/
theorem updateLocalIPAMSubnet_noninterference_witness :
    updateLocalIPAMSubnet ⟨"192.168.1.1", "192.168.1.0/24"⟩
      ⟨⟨"0.4.0", "testConfig", "antrea", 1450,
        ⟨"mock", "10.0.0.0/8", "10.0.0.1", ""⟩⟩, "raw1"⟩ =
    updateLocalIPAMSubnet ⟨"192.168.1.1", "192.168.1.0/24"⟩
      ⟨⟨"0.4.0", "testConfig", "antrea", 1450,
        ⟨"mock", "172.16.0.0/12", "172.16.0.1", ""⟩⟩, "raw2"⟩ :=
  updateLocalIPAMSubnet_noninterference ⟨"192.168.1.1", "192.168.1.0/24"⟩
    ⟨⟨"0.4.0", "testConfig", "antrea", 1450,
      ⟨"mock", "10.0.0.0/8", "10.0.0.1", ""⟩⟩, "raw1"⟩
    ⟨⟨"0.4.0", "testConfig", "antrea", 1450,
      ⟨"mock", "172.16.0.0/12", "172.16.0.1", ""⟩⟩, "raw2"⟩
    (by decide)


/-!
validatePrevResult (server.go, lines 314-347), reached from CmdCheck for
CNI version at least 0.4.0 once parsePrevResultFromRequest succeeded.

The loop classifies each interface of prevResult by name: the requested
ifname is the container end, the deterministic veth name is the host end
(a Go switch, so when the two names coincide the first case wins).  A
missing end yields invalidNetworkConfigResponse; checkInterfaces
(pod_configuration.go, absent from the slice, abstracted here as a boolean
verdict on agreement with the interface store) failing yields
checkInterfaceFailureResponse.
-/

/-- One classification step of the loop over prevResult.Interfaces. -/
def scanStep (ifname hostVethName : String)
    (acc : Option String × Option String) (i : String) :
    Option String × Option String :=
  if i = ifname then (some i, acc.2)
  else if i = hostVethName then (acc.1, some i)
  else acc

/-- The loop of validatePrevResult: the container end and host end found in
the prevResult interface names. -/
def scanPrevInterfaces (ifname hostVethName : String) (ifaces : List String) :
    Option String × Option String :=
  ifaces.foldl (scanStep ifname hostVethName) (none, none)

lemma scanStep_fst (ifname hostVethName : String)
    (acc : Option String × Option String) (i : String) :
    (scanStep ifname hostVethName acc i).1 =
      if i = ifname then some i else acc.1 := by
  by_cases h1 : i = ifname
  · simp [scanStep, h1]
  · by_cases h2 : i = hostVethName
    · subst h2
      simp [scanStep, h1]
    · simp [scanStep, h1, h2]

lemma scanStep_snd (ifname hostVethName : String)
    (acc : Option String × Option String) (i : String) :
    (scanStep ifname hostVethName acc i).2 =
      if i = hostVethName ∧ i ≠ ifname then some i else acc.2 := by
  by_cases h1 : i = ifname
  · simp [scanStep, h1]
  · by_cases h2 : i = hostVethName
    · subst h2
      simp [scanStep, h1]
    · simp [scanStep, h1, h2]

lemma scanPrevInterfaces_fst_aux (ifname hostVethName : String)
    (ifaces : List String) (acc : Option String × Option String) :
    (ifaces.foldl (scanStep ifname hostVethName) acc).1 =
      if ifname ∈ ifaces then some ifname else acc.1 := by
  induction ifaces generalizing acc with
  | nil => simp
  | cons i l ih =>
      rw [List.foldl_cons, ih, scanStep_fst]
      by_cases h1 : i = ifname
      · subst h1
        simp
      · simp [h1, List.mem_cons, Ne.symm h1]

lemma scanPrevInterfaces_snd_aux (ifname hostVethName : String)
    (ifaces : List String) (acc : Option String × Option String) :
    (ifaces.foldl (scanStep ifname hostVethName) acc).2 =
      if hostVethName ∈ ifaces ∧ hostVethName ≠ ifname then some hostVethName
      else acc.2 := by
  induction ifaces generalizing acc with
  | nil => simp
  | cons i l ih =>
      rw [List.foldl_cons, ih, scanStep_snd]
      by_cases hni : hostVethName = ifname
      · simp [hni]
      · by_cases hmem : hostVethName ∈ l
        · simp [hni, hmem, List.mem_cons]
        · by_cases hi : i = hostVethName
          · subst hi
            simp [hni, hmem]
          · simp [hni, hmem, hi, List.mem_cons, Ne.symm hi]

/-- validatePrevResult (server.go, lines 314-347): find both named
interfaces in the prevResult; a missing one yields
invalidNetworkConfigResponse, a store disagreement (checkInterfaces error)
yields checkInterfaceFailureResponse, and otherwise an empty success
result.  The Go function returns a response-and-error pair, and every one
of its four return sites (lines 333, 337, 341, 345) returns a nil error
alongside the response. -/
def validatePrevResult (ifname hostVethName : String) (ifaces : List String)
    (storeAgrees : Bool) : CniResponse × Option String :=
  let scan := scanPrevInterfaces ifname hostVethName ifaces
  if scan.1 = none then
    (CniResponse.error ErrorCode.INVALID_NETWORK_CONFIG, none)
  else if scan.2 = none then
    (CniResponse.error ErrorCode.INVALID_NETWORK_CONFIG, none)
  else if storeAgrees = false then
    (CniResponse.error ErrorCode.CHECK_INTERFACE_FAILURE, none)
  else (CniResponse.success, none)

lemma validatePrevResult_err_nil (ifname hostVethName : String)
    (ifaces : List String) (storeAgrees : Bool) :
    (validatePrevResult ifname hostVethName ifaces storeAgrees).2 = none := by
  simp only [validatePrevResult]
  split_ifs <;> rfl

lemma validatePrevResult_codes (ifname hostVethName : String)
    (ifaces : List String) (storeAgrees : Bool) :
    (ifname ∉ ifaces →
      (validatePrevResult ifname hostVethName ifaces storeAgrees).1 =
        CniResponse.error ErrorCode.INVALID_NETWORK_CONFIG) ∧
    (¬ (hostVethName ∈ ifaces ∧ hostVethName ≠ ifname) →
      (validatePrevResult ifname hostVethName ifaces storeAgrees).1 =
        CniResponse.error ErrorCode.INVALID_NETWORK_CONFIG) ∧
    (ifname ∈ ifaces → hostVethName ∈ ifaces → hostVethName ≠ ifname →
      storeAgrees = false →
      (validatePrevResult ifname hostVethName ifaces storeAgrees).1 =
        CniResponse.error ErrorCode.CHECK_INTERFACE_FAILURE) ∧
    (ifname ∈ ifaces → hostVethName ∈ ifaces → hostVethName ≠ ifname →
      storeAgrees = true →
      (validatePrevResult ifname hostVethName ifaces storeAgrees).1 =
        CniResponse.success) := by
  have hfst := scanPrevInterfaces_fst_aux ifname hostVethName ifaces (none, none)
  have hsnd := scanPrevInterfaces_snd_aux ifname hostVethName ifaces (none, none)
  refine ⟨?_, ?_, ?_, ?_⟩
  · intro hmem
    simp [validatePrevResult, scanPrevInterfaces, hfst, hsnd, hmem]
  · intro hmem
    by_cases h1 : ifname ∈ ifaces <;>
      simp [validatePrevResult, scanPrevInterfaces, hfst, hsnd, hmem, h1]
  · intro h1 h2 h3 h4
    simp [validatePrevResult, scanPrevInterfaces, hfst, hsnd, h1,
          And.intro h2 h3, h4]
  · intro h1 h2 h3 h4
    simp [validatePrevResult, scanPrevInterfaces, hfst, hsnd, h1,
          And.intro h2 h3, h4]

/-- Environment of one CHECK request: whether checkRequestMessage passes,
whether ExecIPAMCheck succeeds, whether the CNI version is at least 0.4.0,
the parsed prevResult interface names (none models a
parsePrevResultFromRequest failure) and the failure response code that
parse failure would carry. -/
structure CheckEnv where
  validationOk : Bool
  ipamCheckOk : Bool
  versionGE040 : Bool
  prevResultParsed : Option (List String)
  parseFailCode : ErrorCode

/-- CmdCheck (server.go, lines 445-473): checkRequestMessage, then
ExecIPAMCheck, then for CNI version at least 0.4.0 the prevResult is
parsed (a parse failure response is returned) and validatePrevResult is
called; its response is returned only when its error result is non-nil
(line 465), otherwise control falls through to the final empty success
response. -/
def cmdCheck (env : CheckEnv) (ifname hostVethName : String)
    (storeAgrees : Bool) : CniResponse :=
  if env.validationOk = false then CniResponse.error ErrorCode.DECODING_FAILURE
  else if env.ipamCheckOk = false then CniResponse.error ErrorCode.IPAM_FAILURE
  else if env.versionGE040 then
    match env.prevResultParsed with
    | none => CniResponse.error env.parseFailCode
    | some ifaces =>
        match validatePrevResult ifname hostVethName ifaces storeAgrees with
        | (response, some _) => response
        | (_, none) => CniResponse.success
  else CniResponse.success

/-- Claim C4 (code bug): the CHECK response never carries the failure codes
the claim and the spec describe.  At a CHECK request that passes
validation, IPAM check and prevResult parsing, with both named interfaces
present but disagreeing with the store's record, validatePrevResult
computes the CHECK_INTERFACE_FAILURE response but pairs it with a nil
error, and CmdCheck, which propagates that response only when the error is
non-nil, discards it and returns the empty success response; the
INVALID_NETWORK_CONFIG response computed for a prevResult missing the
named interfaces is discarded the same way. -/
theorem cmdCheck_discards_validatePrevResult :
    cmdCheck ⟨true, true, true, some ["eth0", "antrea-1"], ErrorCode.UNSUPPORTED_FIELD⟩
        "eth0" "antrea-1" false = CniResponse.success ∧
    (validatePrevResult "eth0" "antrea-1" ["eth0", "antrea-1"] false).1 =
      CniResponse.error ErrorCode.CHECK_INTERFACE_FAILURE ∧
    (validatePrevResult "eth0" "antrea-1" ["eth0", "antrea-1"] false).2 = none ∧
    cmdCheck ⟨true, true, true, some [], ErrorCode.UNSUPPORTED_FIELD⟩
        "eth0" "antrea-1" true = CniResponse.success ∧
    (validatePrevResult "eth0" "antrea-1" [] true).1 =
      CniResponse.error ErrorCode.INVALID_NETWORK_CONFIG ∧
    (validatePrevResult "eth0" "antrea-1" [] true).2 = none := by
  decide

/-!
OVSDB client (pkg/ovs/ovsconfig/ovs_client.go).

A public operation composes one transaction (a list of OVSDB operations)
and commits it.  The embedding separates the transaction structure, which
is fully determined by the source, from the commit outcome, which depends
on the OVSDB server: a commit either fails with an error message and a
temporary flag (NewTransactionError), or returns the result rows.
-/

/-- One OVSDB operation inside a transaction; where clauses are triples of
column, operator and value. -/
inductive OvsOp where
  | selectOp (table : String) (columns : List String)
      (whereClause : List (String × String × String))
  | insertOp (table : String)
  | mutateOp (table : String)
  | updateOp (table : String)
  | waitOp (table : String) (timeoutMs : Nat) (columns : List String)
      (untilCond : String) (whereClause : List (String × String × String))
  deriving DecidableEq, Repr

/-- A transaction error (ovsconfig.NewTransactionError): message plus the
temporary classification. -/
structure TransactionError where
  msg : String
  temporary : Bool
  deriving DecidableEq, Repr

/-- The transaction GetOFPort issues (ovs_client.go, lines 405-422): a wait
on the Interface row's ofport column with a 1000 ms timeout and the
inequality predicate against the empty set, followed by a select of the
same column. -/
def getOFPortOps (ifName : String) : List OvsOp :=
  [OvsOp.waitOp "Interface" 1000 ["ofport"] "!=" [("name", "==", ifName)],
   OvsOp.selectOp "Interface" ["ofport"] [("name", "==", ifName)]]

/-- Outcome of committing the GetOFPort transaction.  Per the OVSDB
protocol (RFC 7047), a wait operation whose timeout expires fails the
transaction with a timed out error, so a timed-out wait surfaces as
commitErr here; the TODO in the source's error branch (differentiate
timeout error) records exactly that. -/
inductive OFPortCommit where
  | commitErr (msg : String) (temporary : Bool)
  | committed (ofport : Int)
  deriving DecidableEq, Repr

/-- GetOFPort (ovs_client.go): on commit failure return 0 together with the
transaction error; on success return the selected ofport with no error. -/
def GetOFPort (outcome : OFPortCommit) : Int × Option TransactionError :=
  match outcome with
  | OFPortCommit.commitErr msg temp => (0, some ⟨msg, temp⟩)
  | OFPortCommit.committed n => (n, none)

/-- Claim C3 counterexample: when the wait times out the commit fails, and
GetOFPort returns the value 0 together with a non-nil transaction error
(whichever way the library classifies the timeout's temporariness), not 0
with no error: the timeout is not absorbed into a success. -/
theorem GetOFPort_timeout_counterexample :
    (GetOFPort (OFPortCommit.commitErr "timed out" true)).1 = 0 ∧
    (GetOFPort (OFPortCommit.commitErr "timed out" true)).2 ≠ none ∧
    (GetOFPort (OFPortCommit.commitErr "timed out" false)).1 = 0 ∧
    (GetOFPort (OFPortCommit.commitErr "timed out" false)).2 ≠ none := by
  decide

/-- Claim C3, amended: GetOFPort issues a single transaction consisting of a
wait on the Interface row's ofport column with a 1000 ms timeout and the
inequality predicate followed by a select; if the commit fails (and a timed
out wait fails the commit) it returns the value 0 together with the
transaction error rather than a success, and callers treat the value 0 as
not yet materialized; on a successful commit it returns the selected ofport
with no error. -/
theorem GetOFPort_wait_then_select (ifName msg : String) (temp : Bool) (n : Int) :
    getOFPortOps ifName =
      [OvsOp.waitOp "Interface" 1000 ["ofport"] "!=" [("name", "==", ifName)],
       OvsOp.selectOp "Interface" ["ofport"] [("name", "==", ifName)]] ∧
    GetOFPort (OFPortCommit.commitErr msg temp) = (0, some ⟨msg, temp⟩) ∧
    GetOFPort (OFPortCommit.committed n) = (n, none) :=
  ⟨rfl, rfl, rfl⟩

/-!
GetPortData (ovs_client.go, lines 465-512): a select on the Port table by
UUID and a select on the Interface table by name, then an asymmetric
treatment of the two lookups.
-/

/-- A Port table row as selected by GetPortData. -/
structure PortRowM where
  name : String
  externalIDs : List (String × String)
  interfaces : List String
  deriving DecidableEq, Repr

/-- An Interface table row as selected by GetPortData; ofport is none when
OVS has not assigned it yet (the OVSDB empty set). -/
structure IntfRowM where
  uuid : String
  ofport : Option Int
  deriving DecidableEq, Repr

/-- ovsconfig.OVSPortData. -/
structure OVSPortData where
  uuid : String
  name : String
  externalIDs : List (String × String)
  ifName : String
  ofPort : Int
  deriving DecidableEq, Repr

/-- buildPortDataCommon (ovs_client.go): name and external ids from the
Port row; OFPort from the Interface row, 0 when not assigned yet. -/
def buildPortDataCommon (port : PortRowM) (intf : IntfRowM)
    (uuid ifName : String) : OVSPortData :=
  ⟨uuid, port.name, port.externalIDs, ifName, intf.ofport.getD 0⟩

/-- Outcome of committing the GetPortData transaction: a commit error, or
the rows answering the two selects. -/
inductive PortDataCommit where
  | commitErr (msg : String) (temporary : Bool)
  | committed (portRows : List PortRowM) (intfRows : List IntfRowM)
  deriving DecidableEq, Repr

/-- GetPortData (ovs_client.go): commit errors propagate; an empty Port
select answer returns no data and no error; an empty Interface select
answer returns a permanent error; an interface not attached to the port
returns a permanent error; otherwise the port data is built. -/
def GetPortData (portUUID ifName : String) (outcome : PortDataCommit) :
    Option OVSPortData × Option TransactionError :=
  match outcome with
  | PortDataCommit.commitErr msg temp => (none, some ⟨msg, temp⟩)
  | PortDataCommit.committed portRows intfRows =>
      match portRows with
      | [] => (none, none)
      | port :: _ =>
          match intfRows with
          | [] => (none, some ⟨"Interface not exists", false⟩)
          | intf :: _ =>
              if intf.uuid ∈ port.interfaces then
                (some (buildPortDataCommon port intf portUUID ifName), none)
              else (none, some ⟨"Interface is not attached to the port", false⟩)

/-- Claim C10: GetPortData treats its two lookups asymmetrically: a port
UUID absent from the Port table yields no port data and no error, while an
interface name absent from the Interface table, or an interface not
attached to the given port, yields a permanent (temporary = false) error;
and since the attached success case also carries no error, the error alone
does not distinguish a missing port from success. -/
theorem GetPortData_asymmetric (portUUID ifName : String)
    (port : PortRowM) (intf : IntfRowM)
    (portRows : List PortRowM) (intfRows : List IntfRowM) :
    (GetPortData portUUID ifName (PortDataCommit.committed [] intfRows) =
      (none, none)) ∧
    (GetPortData portUUID ifName
        (PortDataCommit.committed (port :: portRows) []) =
      (none, some ⟨"Interface not exists", false⟩)) ∧
    (intf.uuid ∉ port.interfaces →
      GetPortData portUUID ifName
          (PortDataCommit.committed (port :: portRows) (intf :: intfRows)) =
        (none, some ⟨"Interface is not attached to the port", false⟩)) ∧
    (intf.uuid ∈ port.interfaces →
      GetPortData portUUID ifName
          (PortDataCommit.committed (port :: portRows) (intf :: intfRows)) =
        (some (buildPortDataCommon port intf portUUID ifName), none)) := by
  refine ⟨rfl, rfl, ?_, ?_⟩
  · intro h
    simp [GetPortData, h]
  · intro h
    simp [GetPortData, h]

/-- Witness for claim C10 at concrete rows: a port whose interface list
holds uuid i1, probed with an interface row of uuid i2 (not attached) and
with one of uuid i1 (attached). -/
theorem GetPortData_asymmetric_witness :
    (GetPortData "u" "p1" (PortDataCommit.committed [] []) = (none, none)) ∧
    (GetPortData "u" "p1"
        (PortDataCommit.committed [⟨"p1", [], ["i1"]⟩] []) =
      (none, some ⟨"Interface not exists", false⟩)) ∧
    (GetPortData "u" "p1"
        (PortDataCommit.committed [⟨"p1", [], ["i1"]⟩] [⟨"i2", some 1⟩]) =
      (none, some ⟨"Interface is not attached to the port", false⟩)) ∧
    (GetPortData "u" "p1"
        (PortDataCommit.committed [⟨"p1", [], ["i1"]⟩] [⟨"i1", some 1⟩]) =
      (some (buildPortDataCommon ⟨"p1", [], ["i1"]⟩ ⟨"i1", some 1⟩ "u" "p1"),
       none)) := by
  have h1 := GetPortData_asymmetric "u" "p1" ⟨"p1", [], ["i1"]⟩ ⟨"i2", some 1⟩ [] []
  have h2 := GetPortData_asymmetric "u" "p1" ⟨"p1", [], ["i1"]⟩ ⟨"i1", some 1⟩ [] []
  exact ⟨h1.1, h1.2.1, h1.2.2.1 (by decide), h2.2.2.2 (by decide)⟩

/-!
Interface store (the agent package).  The implementation file is absent
from the slice; only its test (TestInitCache) is present.  The store and
its Initialize are therefore modelled from the spec, sections 4.B and 6:
Initialize fetches the port list, propagates errors with an emptied store,
and otherwise rebuilds one record per port row carrying a non-empty
container-id external ID, reading pod identity, MAC and IP from the
external IDs and OFPort and UUID from the row.
-/

/-- The external-ID key carrying the container id (spec section 6:
antrea-iface-id). -/
def OVSExternalIDContainerID : String := "antrea-iface-id"

/-- The external-ID key carrying the pod name. -/
def OVSExternalIDPodName : String := "pod-name"

/-- The external-ID key carrying the pod namespace. -/
def OVSExternalIDPodNamespace : String := "pod-namespace"

/-- The external-ID key carrying the pod IP. -/
def OVSExternalIDIP : String := "ip"

/-- The external-ID key carrying the pod MAC. -/
def OVSExternalIDMAC : String := "mac"

/-- A container interface record of the store (the fields TestInitCache
reads: container id, pod identity, interface name, IP, MAC, OFPort and the
OVS port UUID). -/
structure InterfaceConfig where
  id : String
  podName : String
  podNamespace : String
  ifaceName : String
  ip : String
  mac : String
  ofPort : Int
  portUUID : String
  deriving DecidableEq, Repr

/-- Whether a port row carries a non-empty container-id external ID. -/
def hasContainerID (row : OVSPortData) : Bool :=
  ((row.externalIDs.lookup OVSExternalIDContainerID).getD "") != ""

/-- Modelled from the spec: reconstruction of one store record from a
container-tagged OVS port row (spec section 4.B): pod identity, MAC and IP
from the external IDs, OFPort and UUID from the row, interface name from
the row's interface; rows without a non-empty container-id are ignored. -/
def interfaceConfigOfRow (row : OVSPortData) : Option InterfaceConfig :=
  match row.externalIDs.lookup OVSExternalIDContainerID with
  | none => none
  | some cid =>
      if cid = "" then none
      else
        some ⟨cid,
          (row.externalIDs.lookup OVSExternalIDPodName).getD "",
          (row.externalIDs.lookup OVSExternalIDPodNamespace).getD "",
          row.ifName,
          (row.externalIDs.lookup OVSExternalIDIP).getD "",
          (row.externalIDs.lookup OVSExternalIDMAC).getD "",
          row.ofPort, row.uuid⟩

/-- Modelled from the spec: InterfaceStore.Initialize (spec section 4.B).
The previous store contents are discarded first; a port list error leaves
the store empty and propagates the error; otherwise each container-tagged
row is inserted in order. -/
def initInterfaceStore (_prev : List InterfaceConfig)
    (rows : List OVSPortData) (err : Option TransactionError) :
    List InterfaceConfig × Option TransactionError :=
  match err with
  | some e => ([], some e)
  | none =>
      (rows.foldl (fun acc row =>
        match interfaceConfigOfRow row with
        | none => acc
        | some c => acc ++ [c]) [], none)

lemma interfaceConfigOfRow_isSome (row : OVSPortData) :
    (interfaceConfigOfRow row).isSome = hasContainerID row := by
  unfold interfaceConfigOfRow hasContainerID
  cases h : row.externalIDs.lookup OVSExternalIDContainerID with
  | none => simp [h]
  | some cid =>
      by_cases hc : cid = "" <;> simp [h, hc, bne]

lemma initStore_foldl_eq (rows : List OVSPortData) (acc : List InterfaceConfig) :
    rows.foldl (fun acc row =>
      match interfaceConfigOfRow row with
      | none => acc
      | some c => acc ++ [c]) acc = acc ++ rows.filterMap interfaceConfigOfRow := by
  induction rows generalizing acc with
  | nil => simp
  | cons row rest ih =>
      rw [List.foldl_cons]
      cases h : interfaceConfigOfRow row <;>
        simp [h, ih, List.filterMap_cons]

lemma filterMap_length_filter (rows : List OVSPortData) :
    (rows.filterMap interfaceConfigOfRow).length =
      (rows.filter hasContainerID).length := by
  induction rows with
  | nil => rfl
  | cons row rest ih =>
      rw [List.filterMap_cons, List.filter_cons]
      have hs := interfaceConfigOfRow_isSome row
      cases h : interfaceConfigOfRow row with
      | none =>
          rw [h] at hs
          simp [← hs, ih]
      | some c =>
          rw [h] at hs
          simp [← hs, ih]

lemma interfaceConfigOfRow_fields (row : OVSPortData) (c : InterfaceConfig)
    (h : interfaceConfigOfRow row = some c) :
    row.externalIDs.lookup OVSExternalIDContainerID = some c.id ∧ c.id ≠ "" ∧
    c.podName = (row.externalIDs.lookup OVSExternalIDPodName).getD "" ∧
    c.podNamespace = (row.externalIDs.lookup OVSExternalIDPodNamespace).getD "" ∧
    c.ifaceName = row.ifName ∧
    c.ip = (row.externalIDs.lookup OVSExternalIDIP).getD "" ∧
    c.mac = (row.externalIDs.lookup OVSExternalIDMAC).getD "" ∧
    c.ofPort = row.ofPort ∧ c.portUUID = row.uuid := by
  unfold interfaceConfigOfRow at h
  cases hl : row.externalIDs.lookup OVSExternalIDContainerID with
  | none => rw [hl] at h; cases h
  | some cid =>
      rw [hl] at h
      by_cases hc : cid = ""
      · simp [hc] at h
      · simp [hc] at h
        subst h
        exact ⟨rfl, hc, rfl, rfl, rfl, rfl, rfl, rfl, rfl⟩

/-- Claim C6: if the port list call fails the store ends empty with the
error propagated; otherwise the store is first emptied (the previous
contents are irrelevant) and then holds exactly one record per port row
carrying a non-empty container-id external ID, with pod name, pod
namespace, MAC and IP read from the external IDs and OFPort and UUID taken
from the row; rows without the container-id marker are ignored. -/
theorem Initialize_spec (prev : List InterfaceConfig)
    (rows : List OVSPortData) (err : Option TransactionError) :
    (err.isSome = true →
      (initInterfaceStore prev rows err).1 = [] ∧
      (initInterfaceStore prev rows err).2 = err) ∧
    (err = none →
      initInterfaceStore prev rows err = initInterfaceStore [] rows err ∧
      (initInterfaceStore prev rows err).2 = none ∧
      (initInterfaceStore prev rows err).1.length =
        (rows.filter hasContainerID).length ∧
      ∀ c ∈ (initInterfaceStore prev rows err).1, ∃ row ∈ rows,
        row.externalIDs.lookup OVSExternalIDContainerID = some c.id ∧
        c.id ≠ "" ∧
        c.podName = (row.externalIDs.lookup OVSExternalIDPodName).getD "" ∧
        c.podNamespace =
          (row.externalIDs.lookup OVSExternalIDPodNamespace).getD "" ∧
        c.ifaceName = row.ifName ∧
        c.ip = (row.externalIDs.lookup OVSExternalIDIP).getD "" ∧
        c.mac = (row.externalIDs.lookup OVSExternalIDMAC).getD "" ∧
        c.ofPort = row.ofPort ∧ c.portUUID = row.uuid) := by
  constructor
  · intro herr
    cases err with
    | none => cases herr
    | some e => exact ⟨rfl, rfl⟩
  · intro herr
    subst herr
    refine ⟨rfl, rfl, ?_, ?_⟩
    · show (List.foldl _ [] rows).length = _
      rw [initStore_foldl_eq rows []]
      simpa using filterMap_length_filter rows
    · intro c hc
      have hc' : c ∈ rows.filterMap interfaceConfigOfRow := by
        have := initStore_foldl_eq rows []
        simpa [initInterfaceStore, this] using hc
      obtain ⟨row, hrow, hsome⟩ := List.mem_filterMap.mp hc'
      exact ⟨row, hrow, interfaceConfigOfRow_fields row c hsome⟩

/-- Witness for claim C6 on the TestInitCache data: a failing port list
leaves the store empty, and the two container-tagged rows p1 and p2 yield a
store of length two. -/
theorem Initialize_spec_witness :
    (initInterfaceStore []
        [⟨"uuid1", "p1",
          [(OVSExternalIDContainerID, "id1"), (OVSExternalIDMAC, "11:22:33:44:55:66"),
           (OVSExternalIDIP, "1.1.1.1"), (OVSExternalIDPodName, "pod1"),
           (OVSExternalIDPodNamespace, "test")], "p1", 1⟩,
         ⟨"uuid2", "p2",
          [(OVSExternalIDContainerID, "id2"), (OVSExternalIDMAC, "11:22:33:44:55:77"),
           (OVSExternalIDIP, "1.1.1.2"), (OVSExternalIDPodName, "pod2"),
           (OVSExternalIDPodNamespace, "test")], "p2", 2⟩] none).1.length = 2 ∧
    (initInterfaceStore [⟨"x", "p", "t", "p0", "1.1.1.3", "m", 3, "u"⟩] []
        (some ⟨"Failed to list OVS ports", true⟩)).1 = [] := by
  constructor
  · have h := (Initialize_spec []
      [⟨"uuid1", "p1",
        [(OVSExternalIDContainerID, "id1"), (OVSExternalIDMAC, "11:22:33:44:55:66"),
         (OVSExternalIDIP, "1.1.1.1"), (OVSExternalIDPodName, "pod1"),
         (OVSExternalIDPodNamespace, "test")], "p1", 1⟩,
       ⟨"uuid2", "p2",
        [(OVSExternalIDContainerID, "id2"), (OVSExternalIDMAC, "11:22:33:44:55:77"),
         (OVSExternalIDIP, "1.1.1.2"), (OVSExternalIDPodName, "pod2"),
         (OVSExternalIDPodNamespace, "test")], "p2", 2⟩] none).2 rfl
    rw [h.2.2.1]
    decide
  · exact ((Initialize_spec [⟨"x", "p", "t", "p0", "1.1.1.3", "m", 3, "u"⟩] []
      (some ⟨"Failed to list OVS ports", true⟩)).1 rfl).1

/-!
Startup reconciler (CNIServer.reconcile, server.go lines 532-616).

The pod list comes from the Kubernetes client (none models a list error,
the only fatal failure).  The store lookups GetContainerInterface,
GetInterface and GetInterfaceIDs belong to the interface store, whose
implementation is absent from the slice; they are modelled from the spec
(section 4.B): a map from interface name to record with a secondary index
by pod name and namespace.  InstallPodFlows is external; its outcome per
interface name is part of the environment.
-/

/-- A pod as the reconciler sees it: name, namespace and whether it uses
host networking. -/
structure PodM where
  name : String
  ns : String
  hostNetwork : Bool
  deriving DecidableEq, Repr

/-- Modelled from the spec: the store's lookup by pod name and namespace
(GetContainerInterface). -/
def GetContainerInterface (store : List InterfaceConfig)
    (podName podNamespace : String) : Option InterfaceConfig :=
  store.find? fun c => c.podName == podName && c.podNamespace == podNamespace

/-- Modelled from the spec: the store's lookup by interface name
(GetInterface). -/
def GetInterface (store : List InterfaceConfig) (name : String) :
    Option InterfaceConfig :=
  store.find? fun c => c.ifaceName == name

/-- Modelled from the spec: the store's list of interface ids
(GetInterfaceIDs); the store is a map keyed by interface name. -/
def GetInterfaceIDs (store : List InterfaceConfig) : List String :=
  store.map fun c => c.ifaceName

/-- Environment of one reconciliation: the pod list answer (none is a list
error) and the per-interface outcome of InstallPodFlows. -/
structure ReconcileEnv where
  pods : Option (List PodM)
  installOk : String → Bool

/-- The first loop of reconcile: host-network pods are skipped, pods with
no store record are logged and skipped, and a pod whose flow
re-installation fails is logged and skipped as well, so its interface does
not enter the desired set. -/
def reconcileDesired (env : ReconcileEnv) (store : List InterfaceConfig)
    (pods : List PodM) : List String :=
  pods.foldl (fun desired pod =>
    if pod.hostNetwork then desired
    else
      match GetContainerInterface store pod.name pod.ns with
      | none => desired
      | some cfg =>
          if env.installOk cfg.ifaceName then desired ++ [cfg.ifaceName]
          else desired) []

/-- The second loop of reconcile: every known interface id that is not
desired, is still found in the store, and carries a non-empty pod name is
detached (removeInterfaces; errors ignored). -/
def reconcileDetach (store : List InterfaceConfig) (desired : List String) :
    List String :=
  (GetInterfaceIDs store).filter fun id =>
    !(decide (id ∈ desired)) &&
      (match GetInterface store id with
       | none => false
       | some cfg => cfg.podName != "")

/-- reconcile (server.go): a pod list error is returned; otherwise the
desired set is computed, flows are replayed, and the interfaces detached by
the cleanup loop are reported (the handler itself returns nil then). -/
def reconcile (env : ReconcileEnv) (store : List InterfaceConfig) :
    Option (List String) :=
  match env.pods with
  | none => none
  | some pods => some (reconcileDetach store (reconcileDesired env store pods))

/-- For comparison with the spec's words (section 4.E step 2): the desired
set as the spec defines it is the host-side interface names of surviving
pods, computed by store lookup, independent of flow re-installation. -/
def desiredInterfacesSpec (store : List InterfaceConfig) (pods : List PodM) :
    List String :=
  pods.foldl (fun desired pod =>
    if pod.hostNetwork then desired
    else
      match GetContainerInterface store pod.name pod.ns with
      | none => desired
      | some cfg => desired ++ [cfg.ifaceName]) []

/-- Claim C8 counterexample: the reconciler does not detach exactly the
known interfaces outside the spec's desired set: for a surviving pod p/ns
whose record is in the store but whose InstallPodFlows call fails, the
interface eth1 is in the spec's desired set and carries a non-empty pod
name, yet reconcile detaches it. -/
theorem reconcile_detach_counterexample :
    reconcile ⟨some [⟨"p", "ns", false⟩], fun _ => false⟩
        [⟨"cid", "p", "ns", "eth1", "1.1.1.1", "m", 5, "u"⟩] =
      some ["eth1"] ∧
    desiredInterfacesSpec [⟨"cid", "p", "ns", "eth1", "1.1.1.1", "m", 5, "u"⟩]
        [⟨"p", "ns", false⟩] = ["eth1"] ∧
    ("eth1" ∈ GetInterfaceIDs [⟨"cid", "p", "ns", "eth1", "1.1.1.1", "m", 5, "u"⟩]) := by
  refine ⟨rfl, rfl, by decide⟩

lemma reconcileDetach_mem (store : List InterfaceConfig)
    (desired : List String) (id : String) :
    id ∈ reconcileDetach store desired ↔
      (id ∈ GetInterfaceIDs store ∧ id ∉ desired ∧
       ∃ cfg, GetInterface store id = some cfg ∧ cfg.podName ≠ "") := by
  unfold reconcileDetach
  rw [List.mem_filter]
  simp only [Bool.and_eq_true, Bool.not_eq_true', decide_eq_false_iff_not]
  constructor
  · rintro ⟨hmem, hnd, hmatch⟩
    refine ⟨hmem, hnd, ?_⟩
    cases hget : GetInterface store id with
    | none => rw [hget] at hmatch; cases hmatch
    | some cfg =>
        rw [hget] at hmatch
        exact ⟨cfg, rfl, by simpa using hmatch⟩
  · rintro ⟨hmem, hnd, cfg, hget, hpn⟩
    refine ⟨hmem, hnd, ?_⟩
    rw [hget]
    simpa using hpn

/-- Claim C8, amended: the reconciler returns an error exactly when listing
pods fails; every per-pod failure (flow re-install error, missing store
record, interface removal error) is logged and skipped, the loops running
to completion; and detach semantics apply exactly to the known interfaces
that carry a non-empty pod name and are outside the desired set the code
computes, namely the interfaces of surviving pods whose flow
re-installation also succeeded (an interface of a surviving pod whose
InstallPodFlows call fails is detached as well). -/
theorem reconcile_spec (env : ReconcileEnv) (store : List InterfaceConfig) :
    ((reconcile env store).isNone = true ↔ env.pods = none) ∧
    (∀ pods, env.pods = some pods → ∀ id,
      (id ∈ (reconcile env store).getD [] ↔
        (id ∈ GetInterfaceIDs store ∧
         id ∉ reconcileDesired env store pods ∧
         ∃ cfg, GetInterface store id = some cfg ∧ cfg.podName ≠ ""))) := by
  constructor
  · cases h : env.pods <;> simp [reconcile, h]
  · intro pods hp id
    simp only [reconcile, hp, Option.getD_some]
    exact reconcileDetach_mem store (reconcileDesired env store pods) id

/-- Witness for the amended claim C8: with an empty pod list, the store's
single container interface eth1 is characterized as detached. -/
theorem reconcile_spec_witness :
    ("eth1" ∈ (reconcile ⟨some [], fun _ => true⟩
        [⟨"cid", "p", "ns", "eth1", "1.1.1.1", "m", 5, "u"⟩]).getD [] ↔
      ("eth1" ∈ GetInterfaceIDs [⟨"cid", "p", "ns", "eth1", "1.1.1.1", "m", 5, "u"⟩] ∧
       "eth1" ∉ reconcileDesired ⟨some [], fun _ => true⟩
         [⟨"cid", "p", "ns", "eth1", "1.1.1.1", "m", 5, "u"⟩] [] ∧
       ∃ cfg, GetInterface [⟨"cid", "p", "ns", "eth1", "1.1.1.1", "m", 5, "u"⟩]
           "eth1" = some cfg ∧ cfg.podName ≠ "")) :=
  (reconcile_spec ⟨some [], fun _ => true⟩
    [⟨"cid", "p", "ns", "eth1", "1.1.1.1", "m", 5, "u"⟩]).2 [] rfl "eth1"
